import Mathlib

/-!
# Verification of the health-predictor backend

Shallow embedding of the core pipeline of `nuwaaaa/health-predictor`
(`src/backend/{labels,features,confidence,models,advice,pipeline}.py`) and
proofs of the specification claims about it.

Modelling conventions:
* pandas / numpy floating-point values are modelled as exact rationals `ℚ`;
  a nullable column cell (possibly `NaN`) is `Option ℚ`.
* A pandas comparison against `NaN` is `False`; this is embedded explicitly
  wherever a possibly-null cell is compared.
* `date_key` strings (`YYYY-MM-DD`) are modelled as serial day numbers
  (days since 1970-01-01, which was a Thursday); `pandas.dt.dayofweek`
  (Monday = 0) of serial day `d` is `(d + 3) % 7`.
* All inputs are assumed sorted ascending by `date_key` with no duplicate
  keys (the orchestrator contract, spec section 6); on such input the
  `sort_values("date_key")` performed by the sources is the identity, so the
  embedding consumes the sequence directly.
-/

/-- One daily record, as assembled by `pipeline._process_user` and consumed by
`labels.generate_labels`, `features.build_features` and `advice.generate_advice`.
Fields mirror the dataframe columns `date_key, moodScore, sleep_hours, steps,
stress`; every value column is nullable. -/
structure DRow where
  date_key : ℕ
  moodScore : Option ℚ
  sleep_hours : Option ℚ
  steps : Option ℚ
  stress : Option ℚ
deriving DecidableEq, Repr

/-- Python's built-in one-argument `round`: round half to even (banker's
rounding), returning an integer. Used by `advice.generate_advice` for
`int(round(avg_good_stress))` and `int(round((high_bad_rate - low_bad_rate) * 100))`. -/
def pyRound (q : ℚ) : ℤ :=
  let f := ⌊q⌋
  let r := q - f
  if r < 1/2 then f
  else if 1/2 < r then f + 1
  else if f % 2 = 0 then f else f + 1

/-- Mean of a list of rationals, as `pandas.Series.mean` over the non-null
values (the caller supplies the non-null values). Empty input gives `0/0 = 0`;
every use below guards the length. -/
def omean (l : List ℚ) : ℚ := l.sum / l.length

/-- Elementwise subtraction of nullable cells: `NaN` propagates
(`x - NaN = NaN - x = NaN` in pandas). -/
def osub (a b : Option ℚ) : Option ℚ :=
  match a, b with
  | some x, some y => some (x - y)
  | _, _ => none

/-- `series.shift(1)`: value at position `t` is the raw value at `t-1`,
null at position 0. Series are embedded as functions `ℕ → Option ℚ`
(null beyond the end of the frame). -/
def shift1 (s : ℕ → Option ℚ) : ℕ → Option ℚ :=
  fun t => if t = 0 then none else s (t - 1)

/-- The non-null observations inside the width-`w` rolling window ending at
position `t`: the window covers the `min w (t+1)` positions `t, t-1, …` (a
series position below 0 does not exist). -/
def windowObs (w : ℕ) (s : ℕ → Option ℚ) (t : ℕ) : List ℚ :=
  (List.range (min w (t + 1))).filterMap (fun k => s (t - k))

/-- `series.rolling(window=w, min_periods=p).mean()` at position `t`: the mean
is over the non-null values in the window and is defined only when at least
`p` of them are non-null (pandas `min_periods` counts non-null observations). -/
def rollMeanAt (w p : ℕ) (s : ℕ → Option ℚ) (t : ℕ) : Option ℚ :=
  if p ≤ (windowObs w s t).length
  then some ((windowObs w s t).sum / (windowObs w s t).length)
  else none

/-- The mood column of a mood series, with null beyond the end. -/
def moodAt (moods : List (Option ℚ)) : ℕ → Option ℚ :=
  fun t => (moods[t]?).join

/-! ## Label Builder (`labels.generate_labels`) -/

/-- `df["moodScore"].rolling(window=14, min_periods=14).mean()` — the
14-day moving average including the current day (`labels.py` line 23). -/
def mood_ma14_current (moods : List (Option ℚ)) (t : ℕ) : Option ℚ :=
  rollMeanAt 14 14 (moodAt moods) t

/-- `y_today` (`labels.py` lines 28–33):
`np.where(ma14.notna() & (mood <= ma14 - 1), 1, np.where(ma14.notna(), 0, nan))`.
A null mood compares as `False`, landing in the `0` branch when `ma14` is
defined (unreachable in practice, since `ma14` defined forces the current
mood non-null). -/
def y_today (moods : List (Option ℚ)) (t : ℕ) : Option ℚ :=
  match mood_ma14_current moods t with
  | none => none
  | some m =>
    match moodAt moods t with
    | some v => some (if v ≤ m - 1 then 1 else 0)
    | none => some 0

/-- `y_3d` (`labels.py` lines 36–43): default null; the loop runs
`i ∈ range(len(df) - 3)`, skips when `y_today(i)` is null, skips when any of
`y_today(i+1..i+3)` is null, else writes `1` when their max is `≥ 1`, `0`
otherwise. -/
def y_3d (moods : List (Option ℚ)) (t : ℕ) : Option ℚ :=
  if t + 3 < moods.length then
    match y_today moods t with
    | none => none
    | some _ =>
      match y_today moods (t+1), y_today moods (t+2), y_today moods (t+3) with
      | some a, some b, some c => some (if 1 ≤ max a (max b c) then 1 else 0)
      | _, _, _ => none
  else none

/-! Spec-side definitions for the claim about the `ma14` window semantics
(refinement comparison): the claim states `ma14(t)` is defined exactly when at
least 14 row-slots end at `t` inclusive, with the mean over the non-null moods
inside that window, nulls tolerated. -/

/-- Written from the claim's words, not from the source: `ma14` defined iff the
14-row window ending at `t` exists; mean over the non-null values inside it. -/
def ma14_claim (moods : List (Option ℚ)) (t : ℕ) : Option ℚ :=
  if 13 ≤ t ∧ t < moods.length then
    let obs := (List.range 14).filterMap (fun k => moodAt moods (t - k))
    some (obs.sum / obs.length)
  else none

/-- Written from the claim's words: `y_today(t) = 1` iff mood non-null, claimed
`ma14` defined and `mood ≤ ma14 - 1`; `0` if defined but condition false; null
if `ma14` undefined or mood null. -/
def y_today_claim (moods : List (Option ℚ)) (t : ℕ) : Option ℚ :=
  match ma14_claim moods t, moodAt moods t with
  | some m, some v => some (if v ≤ m - 1 then 1 else 0)
  | _, _ => none

lemma filterMap_length_eq_iff {α β : Type*} (f : α → Option β) (l : List α) :
    (l.filterMap f).length = l.length ↔ ∀ x ∈ l, f x ≠ none := by
  induction l with
  | nil => simp
  | cons a l ih =>
    cases h : f a with
    | none =>
      have hle := List.length_filterMap_le f l
      rw [List.filterMap_cons, h]
      constructor
      · intro hlen
        simp only [List.length_cons] at hlen
        omega
      · intro hall
        exact absurd h (hall a (List.mem_cons_self a l))
    | some b =>
      rw [List.filterMap_cons, h]
      simp only [List.length_cons, Nat.add_right_cancel_iff]
      constructor
      · intro hlen x hx
        rcases List.mem_cons.mp hx with rfl | hx'
        · simp [h]
        · exact (ih.mp hlen) x hx'
      · intro hall
        exact ih.mpr (fun x hx => hall x (List.mem_cons_of_mem a hx))

lemma moodAt_lt_of_ne_none {moods : List (Option ℚ)} {t : ℕ} (h : moodAt moods t ≠ none) :
    t < moods.length := by
  by_contra hle
  push_neg at hle
  have hnone : moods[t]? = none := List.getElem?_eq_none hle
  simp [moodAt, hnone] at h

lemma windowObs_length_le (w : ℕ) (s : ℕ → Option ℚ) (t : ℕ) :
    (windowObs w s t).length ≤ w := by
  calc (windowObs w s t).length ≤ (List.range (min w (t + 1))).length :=
        List.length_filterMap_le _ _
    _ ≤ w := by rw [List.length_range]; omega

lemma ma14_defined_iff (moods : List (Option ℚ)) (t : ℕ) :
    mood_ma14_current moods t ≠ none ↔
      13 ≤ t ∧ t < moods.length ∧ ∀ k, k < 14 → moodAt moods (t - k) ≠ none := by
  unfold mood_ma14_current rollMeanAt
  by_cases h : 14 ≤ (windowObs 14 (moodAt moods) t).length
  · rw [if_pos h]
    have hle := windowObs_length_le 14 (moodAt moods) t
    have hlen : (windowObs 14 (moodAt moods) t).length = 14 := by omega
    have hmin : min 14 (t + 1) = 14 := by
      by_contra hmin
      have : min 14 (t + 1) ≤ 13 := by omega
      have : (windowObs 14 (moodAt moods) t).length ≤ 13 := by
        calc (windowObs 14 (moodAt moods) t).length
            ≤ (List.range (min 14 (t + 1))).length := List.length_filterMap_le _ _
          _ ≤ 13 := by rw [List.length_range]; omega
      omega
    simp only [windowObs, hmin] at hlen
    have hall : ∀ k, k < 14 → moodAt moods (t - k) ≠ none := by
      have hiff := (filterMap_length_eq_iff (fun k => moodAt moods (t - k))
        (List.range 14)).mp (by rw [List.length_range]; exact hlen)
      intro k hk
      exact hiff k (List.mem_range.mpr hk)
    refine ⟨fun _ => ⟨by omega, ?_, hall⟩, fun _ => by simp⟩
    have h0 := hall 0 (by omega)
    simpa using moodAt_lt_of_ne_none (by simpa using h0)
  · rw [if_neg h]
    simp only [ne_eq, not_true_eq_false, false_iff, not_and]
    intro h13 _ hall
    apply h
    have hmin : min 14 (t + 1) = 14 := by omega
    have heq : (windowObs 14 (moodAt moods) t).length = (List.range (min 14 (t + 1))).length := by
      apply (filterMap_length_eq_iff _ _).mpr
      intro k hk
      rw [hmin] at hk
      exact hall k (List.mem_range.mp hk)
    rw [heq, List.length_range, hmin]

lemma y_today_val (moods : List (Option ℚ)) (t : ℕ) (v : ℚ)
    (h : y_today moods t = some v) : v = 0 ∨ v = 1 := by
  unfold y_today at h
  cases hma : mood_ma14_current moods t with
  | none => rw [hma] at h; simp at h
  | some m =>
    rw [hma] at h
    cases hv : moodAt moods t with
    | none => rw [hv] at h; simp at h; tauto
    | some x =>
      rw [hv] at h
      simp only [Option.some.injEq] at h
      split at h <;> tauto

/-- Claim C2 (amended). The label builder's `ma14(t)` is defined exactly when
the 14-row window ending at `t` exists (`13 ≤ t < len`) AND every mood inside
that window is non-null — pandas `min_periods=14` counts non-null values, so a
null inside the window makes `ma14(t)` undefined (the claim said nulls inside
the window are tolerated; they are not). When defined, the mean is over the 14
(all non-null) window values. `y_today(t)` is `1` iff `mood(t) ≤ ma14(t) - 1`,
`0` if `ma14` is defined and the condition fails, and null whenever `ma14` is
undefined — which in particular covers every `t` whose window contains a null
mood, including `mood(t)` itself. -/
theorem generate_labels_ma14_amended (moods : List (Option ℚ)) (t : ℕ) :
    (mood_ma14_current moods t ≠ none ↔
      13 ≤ t ∧ t < moods.length ∧ ∀ k, k < 14 → moodAt moods (t - k) ≠ none)
    ∧ (∀ m, mood_ma14_current moods t = some m →
        m = (windowObs 14 (moodAt moods) t).sum / 14 ∧
        (windowObs 14 (moodAt moods) t).length = 14)
    ∧ (∀ m v, mood_ma14_current moods t = some m → moodAt moods t = some v →
        y_today moods t = some (if v ≤ m - 1 then 1 else 0))
    ∧ (mood_ma14_current moods t = none → y_today moods t = none) := by
  refine ⟨ma14_defined_iff moods t, ?_, ?_, ?_⟩
  · intro m hm
    have hle := windowObs_length_le 14 (moodAt moods) t
    unfold mood_ma14_current rollMeanAt at hm
    split at hm
    · rename_i h
      have hlen : (windowObs 14 (moodAt moods) t).length = 14 := by omega
      simp only [Option.some.injEq] at hm
      refine ⟨?_, hlen⟩
      rw [← hm, hlen]
      norm_num
    · exact absurd hm (by simp)
  · intro m v hma hv
    unfold y_today
    rw [hma, hv]
  · intro hma
    unfold y_today
    rw [hma]

def c2gap : List (Option ℚ) :=
  [some 3, some 3, some 3, some 3, some 3, none, some 3, some 3, some 3, some 3,
   some 3, some 3, some 3, some 3]

/-- Claim C2 counterexample: 14 ascending daily rows with a single null mood
at index 5. The claim's window semantics (14 row-slots, nulls tolerated)
yields `y_today(13) = 0`, but `generate_labels` yields null, because pandas
`rolling(14, min_periods=14)` requires 14 non-null moods. -/
theorem generate_labels_ma14_counterexample :
    y_today_claim c2gap 13 = some 0 ∧ y_today c2gap 13 = none := by
  norm_num [y_today, y_today_claim, ma14_claim, mood_ma14_current, rollMeanAt, windowObs,
    moodAt, c2gap, List.range_succ, List.filterMap_cons]

def c2full : List (Option ℚ) := List.replicate 14 (some 3)

/-- Witness for C2's amended theorem at a concrete input: 14 constant moods,
`t = 13`; the amended theorem computes `y_today = some 0`. -/
theorem generate_labels_ma14_amended_witness :
    y_today c2full 13 = some (if (3:ℚ) ≤ 3 - 1 then 1 else 0) :=
  (generate_labels_ma14_amended c2full 13).2.2.1 3 3
    (by norm_num [mood_ma14_current, rollMeanAt, windowObs, moodAt, c2full,
      List.range_succ, List.filterMap_cons])
    (by norm_num [moodAt, c2full])

/-- Claim C3 (amended). `y_3d(t)` equals the logical OR (max) of
`y_today(t+1..t+3)` when `y_today(t)` itself and all three of those are
non-null and `t` is not among the last 3 rows; it is null otherwise — in
particular `y_3d(t)` is also null when `y_today(t)` is null even though all
three future labels are defined (the loop in `generate_labels` skips such
rows), and the last 3 rows of any sequence always have `y_3d` null. -/
theorem y_3d_amended (moods : List (Option ℚ)) (t : ℕ) :
    (∀ x a b c, y_today moods t = some x → y_today moods (t+1) = some a →
        y_today moods (t+2) = some b → y_today moods (t+3) = some c →
        t + 3 < moods.length → y_3d moods t = some (max a (max b c)))
    ∧ ((y_today moods t = none ∨ y_today moods (t+1) = none ∨ y_today moods (t+2) = none
        ∨ y_today moods (t+3) = none ∨ moods.length ≤ t + 3) → y_3d moods t = none) := by
  constructor
  · intro x a b c hx ha hb hc hlen
    have hA := y_today_val moods (t+1) a ha
    have hB := y_today_val moods (t+2) b hb
    have hC := y_today_val moods (t+3) c hc
    unfold y_3d
    rw [if_pos hlen, hx, ha, hb, hc]
    rcases hA with rfl | rfl <;> rcases hB with rfl | rfl <;> rcases hC with rfl | rfl <;>
      norm_num [max_def]
  · intro h
    unfold y_3d
    by_cases hlen : t + 3 < moods.length
    · rw [if_pos hlen]
      rcases h with h | h | h | h | h
      · rw [h]
      · cases hx : y_today moods t <;> simp [h]
      · cases hx : y_today moods t <;> cases h1 : y_today moods (t+1) <;> simp [h, h1]
      · cases hx : y_today moods t <;> cases h1 : y_today moods (t+1) <;>
          cases h2 : y_today moods (t+2) <;> simp [h, h1, h2]
      · exact absurd hlen (by omega)
    · rw [if_neg hlen]

def c3const : List (Option ℚ) := List.replicate 16 (some 3)

/-- Claim C3 counterexample: 16 constant-mood rows. At `t = 12` all of
`y_today(13), y_today(14), y_today(15)` are defined (`= 0`), so the claim says
`y_3d(12) = 0`; but `generate_labels` leaves `y_3d(12)` null because
`y_today(12)` is null. -/
theorem y_3d_counterexample :
    y_today c3const 13 = some 0 ∧ y_today c3const 14 = some 0 ∧ y_today c3const 15 = some 0 ∧
    y_3d c3const 12 = none := by
  norm_num [y_3d, y_today, mood_ma14_current, rollMeanAt, windowObs, moodAt, c3const,
    List.range_succ, List.filterMap_cons]

def c3w : List (Option ℚ) := List.replicate 17 (some 3)

/-- Witness for C3's amended theorem at a concrete input: 17 constant-mood
rows, `t = 13`, all four `y_today` values defined, `y_3d(13) = max` of the
three future labels. -/
theorem y_3d_amended_witness :
    y_3d c3w 13 = some (max 0 (max 0 0)) :=
  (y_3d_amended c3w 13).1 0 0 0 0
    (by norm_num [y_today, mood_ma14_current, rollMeanAt, windowObs, moodAt, c3w,
      List.range_succ, List.filterMap_cons])
    (by norm_num [y_today, mood_ma14_current, rollMeanAt, windowObs, moodAt, c3w,
      List.range_succ, List.filterMap_cons])
    (by norm_num [y_today, mood_ma14_current, rollMeanAt, windowObs, moodAt, c3w,
      List.range_succ, List.filterMap_cons])
    (by norm_num [y_today, mood_ma14_current, rollMeanAt, windowObs, moodAt, c3w,
      List.range_succ, List.filterMap_cons])
    (by norm_num [c3w])

/-! ## Feature Builder (`features.build_features`) -/

/-- A nullable dataframe column of the daily-record frame, as a series:
null beyond the end of the frame. -/
def colOf (rows : List DRow) (f : DRow → Option ℚ) : ℕ → Option ℚ :=
  fun t => (rows[t]?).bind f

/-- The `date_key` column (`df["date"] = pd.to_datetime(df["date_key"])`). -/
def dateAt (rows : List DRow) (t : ℕ) : Option ℕ :=
  (rows[t]?).map (fun r => r.date_key)

/-- `_fill_missing` (`features.py` lines 84–87):
`series.fillna(series.rolling(window, min_periods=1).mean()).fillna(0)` —
take the raw value, else the trailing mean of the last `w` positions
(current included, at least one observation), else `0`. Never null. -/
def fillMissing (w : ℕ) (s : ℕ → Option ℚ) (t : ℕ) : ℚ :=
  ((s t).orElse (fun _ => rollMeanAt w 1 s t)).getD 0

/-- The fifteen contract feature columns of `features.get_feature_columns`
(`features.py` lines 63–81), in order. Every column is nullable (`Option ℚ`),
mirroring the pandas frame. -/
structure FeatureRow where
  day_of_week : Option ℚ
  is_weekend : Option ℚ
  mood_lag1 : Option ℚ
  mood_ma3 : Option ℚ
  mood_ma7 : Option ℚ
  mood_delta1 : Option ℚ
  mood_dev14 : Option ℚ
  sleep_hours_filled : Option ℚ
  sleep_missing : Option ℚ
  sleep_dev : Option ℚ
  steps_filled : Option ℚ
  steps_missing : Option ℚ
  steps_dev : Option ℚ
  stress_filled : Option ℚ
  stress_missing : Option ℚ
deriving DecidableEq, Repr

/-- Row `t` of the feature table built by `features.build_features`
(`features.py` lines 11–60), column by column:
* `day_of_week = df["date"].dt.dayofweek` (0 = Monday), `is_weekend ∈ {Sat, Sun}`;
* mood features from `moodScore.shift(1)` only: `lag1`, `ma3`/`ma7`
  (`rolling(3/7, min_periods=1)`), `delta1 = shift(1) - shift(2)`,
  `ma14 = rolling(14, min_periods=7)` and `dev14 = shift(1) - ma14`;
* sleep features from the same-day `sleep_hours`: `_fill_missing(·, 7)`,
  `isna` flag, and deviation from `rolling(7, min_periods=1).mean()`;
* step features from `steps.shift(1)` (same-day steps are incomplete):
  the same fill/missing treatment, deviation baseline
  `steps.shift(1).rolling(7, min_periods=1).mean()`;
* stress features from `stress.shift(1)`: fill and missing flag only. -/
def featureRowAt (rows : List DRow) (t : ℕ) : FeatureRow :=
  let mood := colOf rows (fun r => r.moodScore)
  let sleep := colOf rows (fun r => r.sleep_hours)
  let steps := colOf rows (fun r => r.steps)
  let stress := colOf rows (fun r => r.stress)
  { day_of_week := (dateAt rows t).map (fun d => (((d + 3) % 7 : ℕ) : ℚ))
    is_weekend := (dateAt rows t).map
      (fun d => if (d + 3) % 7 = 5 ∨ (d + 3) % 7 = 6 then (1:ℚ) else 0)
    mood_lag1 := shift1 mood t
    mood_ma3 := rollMeanAt 3 1 (shift1 mood) t
    mood_ma7 := rollMeanAt 7 1 (shift1 mood) t
    mood_delta1 := osub (shift1 mood t) (shift1 (shift1 mood) t)
    mood_dev14 := osub (shift1 mood t) (rollMeanAt 14 7 (shift1 mood) t)
    sleep_hours_filled := some (fillMissing 7 sleep t)
    sleep_missing := (rows[t]?).map (fun r => if r.sleep_hours = none then (1:ℚ) else 0)
    sleep_dev := osub (some (fillMissing 7 sleep t)) (rollMeanAt 7 1 sleep t)
    steps_filled := some (fillMissing 7 (shift1 steps) t)
    steps_missing := (rows[t]?).map (fun _ => if shift1 steps t = none then (1:ℚ) else 0)
    steps_dev := osub (some (fillMissing 7 (shift1 steps) t)) (rollMeanAt 7 1 (shift1 steps) t)
    stress_filled := some (fillMissing 7 (shift1 stress) t)
    stress_missing := (rows[t]?).map (fun _ => if shift1 stress t = none then (1:ℚ) else 0) }

/-- `features.build_features`: one feature row per input row, same order. -/
def build_features (rows : List DRow) : List FeatureRow :=
  (List.range rows.length).map (featureRowAt rows)

/-- The orchestrator input contract: strictly ascending `date_key`s
(sorted, no duplicates), under which `sort_values("date_key")` is the
identity. -/
def dateAscending (rows : List DRow) : Prop :=
  rows.Pairwise (fun a b => a.date_key < b.date_key)

lemma rollMeanAt_congr {s s' : ℕ → Option ℚ} {t : ℕ} (w p : ℕ)
    (h : ∀ j, j ≤ t → s j = s' j) : rollMeanAt w p s t = rollMeanAt w p s' t := by
  have hw : windowObs w s t = windowObs w s' t := by
    unfold windowObs
    apply List.filterMap_congr
    intro k _
    exact h (t - k) (by omega)
  unfold rollMeanAt
  rw [hw]

lemma shift1_congr {s s' : ℕ → Option ℚ} {t : ℕ} (h : ∀ j, j < t → s j = s' j) :
    ∀ j, j ≤ t → shift1 s j = shift1 s' j := by
  intro j hj
  unfold shift1
  split
  · rfl
  · rename_i hj0
    exact h (j - 1) (by omega)

lemma fillMissing_congr {s s' : ℕ → Option ℚ} {t : ℕ} (w : ℕ)
    (h : ∀ j, j ≤ t → s j = s' j) : fillMissing w s t = fillMissing w s' t := by
  unfold fillMissing
  rw [h t le_rfl, rollMeanAt_congr w 1 h]

/-- Claim C1. Leakage invariant of the Feature Builder: for ascending inputs,
the feature row at index `i` is unchanged under any modification of the rows
after `i` and of row `i`'s own `moodScore`, `steps` and `stress` (only row
`i`'s `date_key` and `sleep_hours` can influence its own feature row) — the
hypotheses fix only the rows before `i` and row `i`'s `date_key` and
`sleep_hours`, leaving everything else free. Moreover `mood_lag1` is null at
the first row and equals the mood at row `i-1` for every `i > 0`. -/
theorem build_features_leakage (rows rows' : List DRow) (i : ℕ)
    (_hasc : dateAscending rows) (_hasc' : dateAscending rows')
    (hpre : ∀ j, j < i → rows'[j]? = rows[j]?)
    (hdk : (rows'[i]?).map (fun r => r.date_key) = (rows[i]?).map (fun r => r.date_key))
    (hsl : (rows'[i]?).bind (fun r => r.sleep_hours) = (rows[i]?).bind (fun r => r.sleep_hours)) :
    featureRowAt rows' i = featureRowAt rows i
    ∧ (featureRowAt rows 0).mood_lag1 = none
    ∧ (0 < i → (featureRowAt rows i).mood_lag1 = (rows[i-1]?).bind (fun r => r.moodScore)) := by
  have hmood : ∀ j, j < i → colOf rows' (fun r => r.moodScore) j = colOf rows (fun r => r.moodScore) j := by
    intro j hj; unfold colOf; rw [hpre j hj]
  have hsteps : ∀ j, j < i → colOf rows' (fun r => r.steps) j = colOf rows (fun r => r.steps) j := by
    intro j hj; unfold colOf; rw [hpre j hj]
  have hstress : ∀ j, j < i → colOf rows' (fun r => r.stress) j = colOf rows (fun r => r.stress) j := by
    intro j hj; unfold colOf; rw [hpre j hj]
  have hsleep : ∀ j, j ≤ i → colOf rows' (fun r => r.sleep_hours) j = colOf rows (fun r => r.sleep_hours) j := by
    intro j hj
    rcases Nat.lt_or_ge j i with hj' | hj'
    · unfold colOf; rw [hpre j hj']
    · have : j = i := by omega
      subst this
      exact hsl
  have hms : ∀ j, j ≤ i → shift1 (colOf rows' (fun r => r.moodScore)) j
      = shift1 (colOf rows (fun r => r.moodScore)) j := shift1_congr hmood
  have hss : ∀ j, j ≤ i → shift1 (colOf rows' (fun r => r.steps)) j
      = shift1 (colOf rows (fun r => r.steps)) j := shift1_congr hsteps
  have hst : ∀ j, j ≤ i → shift1 (colOf rows' (fun r => r.stress)) j
      = shift1 (colOf rows (fun r => r.stress)) j := shift1_congr hstress
  have hms2 : ∀ j, j ≤ i → shift1 (shift1 (colOf rows' (fun r => r.moodScore))) j
      = shift1 (shift1 (colOf rows (fun r => r.moodScore))) j :=
    shift1_congr (fun j hj => hms j (le_of_lt hj))
  have hopt : (rows'[i]?).isSome = (rows[i]?).isSome := by
    cases h1 : rows'[i]? <;> cases h2 : rows[i]? <;> simp_all
  refine ⟨?_, ?_, ?_⟩
  · unfold featureRowAt
    simp only
    congr 1
    · unfold dateAt; rw [hdk]
    · unfold dateAt; rw [hdk]
    · exact hms i le_rfl
    · exact rollMeanAt_congr 3 1 hms
    · exact rollMeanAt_congr 7 1 hms
    · rw [hms i le_rfl, hms2 i le_rfl]
    · rw [hms i le_rfl, rollMeanAt_congr 14 7 hms]
    · rw [fillMissing_congr 7 hsleep]
    · -- sleep_missing
      cases h1 : rows'[i]? with
      | none =>
        cases h2 : rows[i]? with
        | none => rfl
        | some r => rw [h1, h2] at hopt; simp at hopt
      | some r' =>
        cases h2 : rows[i]? with
        | none => rw [h1, h2] at hopt; simp at hopt
        | some r =>
          have : r'.sleep_hours = r.sleep_hours := by
            rw [h1, h2] at hsl; simpa using hsl
          simp [this]
    · rw [fillMissing_congr 7 hsleep, rollMeanAt_congr 7 1 hsleep]
    · rw [fillMissing_congr 7 hss]
    · cases h1 : rows'[i]? with
      | none =>
        cases h2 : rows[i]? with
        | none => rfl
        | some r => rw [h1, h2] at hopt; simp at hopt
      | some r' =>
        cases h2 : rows[i]? with
        | none => rw [h1, h2] at hopt; simp at hopt
        | some r => simp [hss i le_rfl]
    · rw [fillMissing_congr 7 hss, rollMeanAt_congr 7 1 hss]
    · rw [fillMissing_congr 7 hst]
    · cases h1 : rows'[i]? with
      | none =>
        cases h2 : rows[i]? with
        | none => rfl
        | some r => rw [h1, h2] at hopt; simp at hopt
      | some r' =>
        cases h2 : rows[i]? with
        | none => rw [h1, h2] at hopt; simp at hopt
        | some r => simp [hst i le_rfl]
  · simp [featureRowAt, shift1]
  · intro hi
    simp only [featureRowAt, shift1, colOf]
    rw [if_neg (by omega)]

def c1rows : List DRow :=
  [⟨0, some 3, some 7, some 8000, some 2⟩, ⟨1, some 4, some 6, some 9000, none⟩]
def c1rows' : List DRow :=
  [⟨0, some 3, some 7, some 8000, some 2⟩, ⟨1, some 5, some 6, some 100, some 1⟩]

/-- Witness for C1 at a concrete input: two-row sequences differing in row 1's
mood, steps and stress produce the same feature row at index 1. -/
theorem build_features_leakage_witness :
    featureRowAt c1rows' 1 = featureRowAt c1rows 1 ∧
    (featureRowAt c1rows 0).mood_lag1 = none ∧
    (0 < 1 → (featureRowAt c1rows 1).mood_lag1 = (c1rows[0]?).bind (fun r => r.moodScore)) :=
  build_features_leakage c1rows c1rows' 1
    (by norm_num [dateAscending, c1rows])
    (by norm_num [dateAscending, c1rows'])
    (by intro j hj; interval_cases j; rfl)
    (by rfl)
    (by rfl)

/-- The claim's property (written from the claim's words): all fifteen
contract feature columns of a feature row are non-null. -/
def allFeaturesPresent (fr : FeatureRow) : Prop :=
  fr.day_of_week ≠ none ∧ fr.is_weekend ≠ none ∧ fr.mood_lag1 ≠ none ∧ fr.mood_ma3 ≠ none ∧
  fr.mood_ma7 ≠ none ∧ fr.mood_delta1 ≠ none ∧ fr.mood_dev14 ≠ none ∧
  fr.sleep_hours_filled ≠ none ∧ fr.sleep_missing ≠ none ∧ fr.sleep_dev ≠ none ∧
  fr.steps_filled ≠ none ∧ fr.steps_missing ≠ none ∧ fr.steps_dev ≠ none ∧
  fr.stress_filled ≠ none ∧ fr.stress_missing ≠ none

def c7rows : List DRow := [⟨0, some 3, some 7, some 8000, some 2⟩]

/-- Claim C7 counterexample: on a one-row input the very first feature row has
`mood_lag1` null (as do the other lag/rolling columns), so the fifteen-column
feature vector is not null-free at every row. -/
theorem feature_vector_nonnull_counterexample :
    (build_features c7rows)[0]? = some (featureRowAt c7rows 0) ∧
    ¬ allFeaturesPresent (featureRowAt c7rows 0) :=
  ⟨by simp [build_features, c7rows, List.range_succ],
   fun h => h.2.2.1 (by norm_num [featureRowAt, shift1])⟩

/-- Claim C7 (amended). The "fill with trailing mean, else 0" imputation
guarantees non-null values at every row for the imputed columns
`sleep_hours_filled`, `steps_filled`, `stress_filled`, for the three
missingness flags and for the calendar columns; the lagged/rolling mood
columns and the deviation columns may still be null on early rows (the model
trainer later drops rows with any null feature). -/
theorem feature_filled_columns_nonnull (rows : List DRow) (t : ℕ) (ht : t < rows.length) :
    (featureRowAt rows t).day_of_week ≠ none ∧ (featureRowAt rows t).is_weekend ≠ none ∧
    (featureRowAt rows t).sleep_hours_filled ≠ none ∧ (featureRowAt rows t).sleep_missing ≠ none ∧
    (featureRowAt rows t).steps_filled ≠ none ∧ (featureRowAt rows t).steps_missing ≠ none ∧
    (featureRowAt rows t).stress_filled ≠ none ∧ (featureRowAt rows t).stress_missing ≠ none := by
  have hrow : ∃ r, rows[t]? = some r := by
    rcases h : rows[t]? with _ | r
    · rw [List.getElem?_eq_none_iff] at h; omega
    · exact ⟨r, rfl⟩
  obtain ⟨r, hr⟩ := hrow
  simp [featureRowAt, dateAt, hr]

/-- Witness for C7's amended theorem at a concrete one-row input. -/
theorem feature_filled_columns_nonnull_witness :
    (featureRowAt c7rows 0).day_of_week ≠ none ∧ (featureRowAt c7rows 0).is_weekend ≠ none ∧
    (featureRowAt c7rows 0).sleep_hours_filled ≠ none ∧ (featureRowAt c7rows 0).sleep_missing ≠ none ∧
    (featureRowAt c7rows 0).steps_filled ≠ none ∧ (featureRowAt c7rows 0).steps_missing ≠ none ∧
    (featureRowAt c7rows 0).stress_filled ≠ none ∧ (featureRowAt c7rows 0).stress_missing ≠ none :=
  feature_filled_columns_nonnull c7rows 0 (by norm_num [c7rows])

/-! ## Configuration -/

/-- Modelled from the spec: the module `config` imported by `confidence.py`,
`models.py` and `pipeline.py` is not among the available sources. Per spec
sections 6 and 9 it is an immutable set of scalar thresholds ("the global
configuration module pattern … becomes an explicit immutable configuration
value passed into every component call"), so it is passed explicitly here.
Field names are the constant names the sources read. -/
structure Config where
  MIN_DAYS_TODAY : ℕ
  VALIDATION_DAYS : ℕ
  LGBM_MIN_DAYS : ℤ
  LGBM_MIN_UNHEALTHY : ℤ
  CONFIDENCE_HIGH_DAYS : ℤ
  CONFIDENCE_HIGH_UNHEALTHY : ℤ
  CONFIDENCE_MEDIUM_DAYS : ℤ
  CONFIDENCE_MEDIUM_UNHEALTHY : ℤ
  MISSING_RATE_THRESHOLD : ℚ

/-- Modelled from the spec: example configuration values. The confidence
thresholds and the 0.30 missing-rate threshold are the values documented in
`confidence.py`'s own docstring table and exercised by the spec's test
vectors; `MIN_DAYS_TODAY` and the validation window are the spec's "e.g. 14".
The spec gives no numbers for the tree-candidate gate, so arbitrary positive
values stand in; theorems below never depend on them. -/
def defaultConfig : Config :=
  { MIN_DAYS_TODAY := 14
    VALIDATION_DAYS := 14
    LGBM_MIN_DAYS := 60
    LGBM_MIN_UNHEALTHY := 10
    CONFIDENCE_HIGH_DAYS := 60
    CONFIDENCE_HIGH_UNHEALTHY := 10
    CONFIDENCE_MEDIUM_DAYS := 30
    CONFIDENCE_MEDIUM_UNHEALTHY := 5
    MISSING_RATE_THRESHOLD := 3/10 }

/-! ## Confidence Estimator (`confidence.calculate_confidence`) -/

/-- The base-tier if/elif/else of `confidence.calculate_confidence`
(`confidence.py` lines 27–38). -/
def confidence_base (cfg : Config) (days_collected unhealthy_count : ℤ) : String :=
  if cfg.CONFIDENCE_HIGH_DAYS ≤ days_collected ∧
     cfg.CONFIDENCE_HIGH_UNHEALTHY ≤ unhealthy_count then "high"
  else if cfg.CONFIDENCE_MEDIUM_DAYS ≤ days_collected ∧
          cfg.CONFIDENCE_MEDIUM_UNHEALTHY ≤ unhealthy_count then "medium"
  else "low"

/-- `confidence.calculate_confidence` (`confidence.py` lines 17–47): base
tier, then one-step downgrade when the recent missing rate reaches the
threshold. -/
def calculate_confidence (cfg : Config) (days_collected unhealthy_count : ℤ)
    (recent_missing_rate : ℚ) : String :=
  let level := confidence_base cfg days_collected unhealthy_count
  if cfg.MISSING_RATE_THRESHOLD ≤ recent_missing_rate then
    if level = "high" then "medium"
    else if level = "medium" then "low"
    else level
  else level

/-- Written from the claim's words: "exactly one tier lower (high becomes
medium, medium becomes low, low stays low)". -/
def demoteOneTier (s : String) : String :=
  if s = "high" then "medium" else if s = "medium" then "low" else s

/-- Written from the claim's words, not from the source: the claimed
confidence rule — base tier from the two threshold pairs, downgraded exactly
one tier when `recent_missing_rate` reaches the configured threshold. -/
def confidence_claim (cfg : Config) (d u : ℤ) (r : ℚ) : String :=
  let base :=
    if cfg.CONFIDENCE_HIGH_DAYS ≤ d ∧ cfg.CONFIDENCE_HIGH_UNHEALTHY ≤ u then "high"
    else if cfg.CONFIDENCE_MEDIUM_DAYS ≤ d ∧ cfg.CONFIDENCE_MEDIUM_UNHEALTHY ≤ u then "medium"
    else "low"
  if cfg.MISSING_RATE_THRESHOLD ≤ r then demoteOneTier base else base

/-- Claim C6. `calculate_confidence` equals, for every configuration and all
integer `days_collected`, `unhealthy_count` and rational
`recent_missing_rate`, the claimed rule (base tier, one-tier downgrade, low
never downgrades further); being a plain function of the three scalars it is
deterministic and pure. The six spec test vectors are checked at the
documented thresholds. -/
theorem calculate_confidence_spec :
    (∀ (cfg : Config) (d u : ℤ) (r : ℚ),
      calculate_confidence cfg d u r = confidence_claim cfg d u r)
    ∧ calculate_confidence defaultConfig 20 3 0 = "low"
    ∧ calculate_confidence defaultConfig 45 7 0 = "medium"
    ∧ calculate_confidence defaultConfig 60 10 0 = "high"
    ∧ calculate_confidence defaultConfig 60 10 (35/100) = "medium"
    ∧ calculate_confidence defaultConfig 45 7 (35/100) = "low"
    ∧ calculate_confidence defaultConfig 10 1 (5/10) = "low" := by
  refine ⟨?_, ?_, ?_, ?_, ?_, ?_, ?_⟩
  · intro cfg d u r
    unfold calculate_confidence confidence_claim demoteOneTier confidence_base
    rfl
  all_goals norm_num [calculate_confidence, confidence_base, defaultConfig]
  all_goals exact fun h => absurd h (by decide)

/-! ## Pipeline driver (`pipeline._process_user`) -/

/-- The per-user table assembly of `pipeline._process_user` (`pipeline.py`
lines 88–103): every daily document whose `moodScore` is null is skipped
(`if mood is None: continue`); all other fields are carried over as-is.
`generate_labels` and `build_features` only add columns, so the `moodScore`
column of the frame later passed to the missing-rate computation is exactly
this filtered column. -/
def assembleRows (raw : List DRow) : List DRow :=
  raw.filter (fun d => d.moodScore.isSome)

/-- `pipeline.py` lines 134–136: `recent_7 = df.tail(7)`;
`recent_missing_rate = recent_7["moodScore"].isna().sum() / len(recent_7)`.
(`0/0 = 0` by the rational convention; the source only evaluates this on
frames with at least `MIN_DAYS_TODAY` rows.) -/
def recent_missing_rate (df : List DRow) : ℚ :=
  (((df.drop (df.length - 7)).filter (fun r => r.moodScore.isNone)).length : ℚ) /
    ((df.drop (df.length - 7)).length : ℚ)

/-- Claim C10. On the pipeline path the assembled table has no null
`moodScore`, the trailing-7-row recent missing rate is exactly `0`, and —
because the configured downgrade threshold is positive (spec example `0.30`)
— the Confidence Estimator's downgrade branch is never taken: the result is
exactly the base tier. -/
theorem pipeline_missing_rate_zero (raw : List DRow) (cfg : Config) (d u : ℤ)
    (_hmin : cfg.MIN_DAYS_TODAY ≤ (assembleRows raw).length)
    (hthr : 0 < cfg.MISSING_RATE_THRESHOLD) :
    (∀ r ∈ assembleRows raw, r.moodScore ≠ none)
    ∧ recent_missing_rate (assembleRows raw) = 0
    ∧ calculate_confidence cfg d u (recent_missing_rate (assembleRows raw))
        = confidence_base cfg d u := by
  have hmem : ∀ r ∈ assembleRows raw, r.moodScore ≠ none := by
    intro r hr
    have := (List.mem_filter.mp hr).2
    simpa [Option.isSome_iff_ne_none] using this
  have hrate : recent_missing_rate (assembleRows raw) = 0 := by
    unfold recent_missing_rate
    have hnil : ((assembleRows raw).drop ((assembleRows raw).length - 7)).filter
        (fun r => r.moodScore.isNone) = [] := by
      rw [List.filter_eq_nil_iff]
      intro r hr
      have hr' : r ∈ assembleRows raw := List.drop_subset _ _ hr
      have := hmem r hr'
      simp [Option.isNone_iff_eq_none, this]
    rw [hnil]
    simp
  refine ⟨hmem, hrate, ?_⟩
  rw [hrate]
  unfold calculate_confidence
  rw [if_neg (by exact not_le.mpr hthr)]

def c10raw : List DRow :=
  (List.replicate 14 ⟨0, some 3, none, none, none⟩) ++ [⟨1, none, some 7, none, none⟩]

/-- Witness for C10 at a concrete input: 14 mood-valid daily documents plus
one null-mood document, spec-documented thresholds. -/
theorem pipeline_missing_rate_zero_witness :
    (∀ r ∈ assembleRows c10raw, r.moodScore ≠ none)
    ∧ recent_missing_rate (assembleRows c10raw) = 0
    ∧ calculate_confidence defaultConfig 20 3 (recent_missing_rate (assembleRows c10raw))
        = confidence_base defaultConfig 20 3 :=
  pipeline_missing_rate_zero c10raw defaultConfig 20 3
    (by decide)
    (by norm_num [defaultConfig])

/-! ## Model Trainer/Selector (`models.train_and_predict`) -/

/-- One row of the feature+label table as seen by `models.train_and_predict`:
the target label column and the fifteen feature values (contract order). -/
structure TRow where
  target : Option ℚ
  feats : List (Option ℚ)
deriving DecidableEq, Repr

/-- The data `train_and_predict` extracts from one fitted candidate:
predicted probability for the most recent valid row, validation ROC-AUC and
PR-AUC (null when the validation split is missing or single-class, as decided
by `_safe_auc`/`_safe_pr_auc`), and the top-3 contribution list (already
truncated; the contribution helpers catch their own exceptions and return
`[]`). The numeric fitting itself is external library code (scikit-learn /
LightGBM floating point), so candidates enter the embedding as function
parameters evaluated on the split data. -/
structure CandResult where
  prob : ℚ
  auc : Option ℚ
  pr_auc : Option ℚ
  contributions : List (String × ℚ)
deriving DecidableEq, Repr

/-- What `train_and_predict` passes to the fits: the training rows, the
optional validation rows, and the most recent valid row `X[-1:]`. -/
structure SplitData where
  train : List TRow
  test : Option (List TRow)
  lastRow : TRow
deriving DecidableEq, Repr

/-- The returned dict of `train_and_predict`. `contributions = none` models
the dict without a `"contributions"` key (the two early returns); the caller
reads it with `.get("contributions", [])`. -/
structure TResult where
  probability : Option ℚ
  model_type : String
  auc : Option ℚ
  pr_auc : Option ℚ
  contributions : Option (List (String × ℚ))
deriving DecidableEq, Repr

/-- numpy `astype(int)`: truncation toward zero. -/
def pyInt (q : ℚ) : ℤ := q.num.tdiv q.den

/-- Step 1 (`models.py` line 41): `df.dropna(subset=[target_col] + feature_cols)` —
keep the rows whose target and all fifteen features are non-null, in order. -/
def validRows (df : List TRow) : List TRow :=
  df.filter (fun r => r.target.isSome && r.feats.all Option.isSome)

/-- `y.sum()` for `y = valid[target_col].values.astype(int)` (`models.py`
lines 47, 50). -/
def ySum (valid : List TRow) : ℤ :=
  (valid.map (fun r => pyInt (r.target.getD 0))).sum

/-- The time-ordered split (`models.py` lines 55–65):
`n_test = max(min(VALIDATION_DAYS, len(valid) // 3), 1)`; validation = last
`n_test` rows, train = the rows before; if the training part has no positive
label, train on the whole valid set with no validation. -/
def splitOf (cfg : Config) (valid : List TRow) : SplitData :=
  let n_test := max (min cfg.VALIDATION_DAYS (valid.length / 3)) 1
  let train0 := valid.take (valid.length - n_test)
  let test0 := valid.drop (valid.length - n_test)
  if ySum train0 = 0 then
    { train := valid, test := none, lastRow := valid.getLastD ⟨none, []⟩ }
  else
    { train := train0, test := some test0, lastRow := valid.getLastD ⟨none, []⟩ }

/-- The selection logic (`models.py` lines 129–158): with both AUCs defined
pick LightGBM iff its AUC is strictly larger; with only the LightGBM AUC
defined pick LightGBM; otherwise keep the logistic candidate. The selected
candidate supplies probability, AUCs and contribution list. -/
def selectBest (lr : CandResult) (gb : CandResult) : TResult :=
  match gb.auc, lr.auc with
  | some ga, some la =>
    if la < ga then ⟨some gb.prob, "lightgbm", gb.auc, gb.pr_auc, some gb.contributions⟩
    else ⟨some lr.prob, "logistic", lr.auc, lr.pr_auc, some lr.contributions⟩
  | some _, none => ⟨some gb.prob, "lightgbm", gb.auc, gb.pr_auc, some gb.contributions⟩
  | none, _ => ⟨some lr.prob, "logistic", lr.auc, lr.pr_auc, some lr.contributions⟩

/-- `models.train_and_predict` (`models.py` lines 23–169). Branch structure
from the source: dropna; fewer valid rows than `MIN_DAYS_TODAY` → null
probability; zero positive labels → probability exactly `0.0`, no fit; else
split, fit the logistic candidate, and — only when `days_collected` and
`unhealthy_count` clear the configured gate — run the LightGBM block. That
block (`import`, fit, the two `predict_proba` calls and the metric
computations) is external fallible code, modelled by the `Except`-valued
parameter `lgbRun`; in the source every statement that can raise inside the
`try` executes before any `best_*` variable is reassigned (the selection
`if`s are pure float comparisons), so the `except Exception` handler
(`models.py` lines 160–161) leaves the logistic candidate's values in place —
the `.error` arm returns exactly the logistic result. -/
def train_and_predict (cfg : Config) (lrFit : SplitData → CandResult)
    (lgbRun : SplitData → Except Unit CandResult)
    (df : List TRow) (days_collected unhealthy_count : ℤ) : TResult :=
  let valid := validRows df
  if valid.length < cfg.MIN_DAYS_TODAY then
    ⟨none, "logistic", none, none, none⟩
  else if ySum valid = 0 then
    ⟨some 0, "logistic", none, none, none⟩
  else
    let sd := splitOf cfg valid
    let lr := lrFit sd
    if cfg.LGBM_MIN_DAYS ≤ days_collected ∧ cfg.LGBM_MIN_UNHEALTHY ≤ unhealthy_count then
      match lgbRun sd with
      | .error _ => ⟨some lr.prob, "logistic", lr.auc, lr.pr_auc, some lr.contributions⟩
      | .ok gb => selectBest lr gb
    else ⟨some lr.prob, "logistic", lr.auc, lr.pr_auc, some lr.contributions⟩

/-- Claim C4. Whenever the valid rows number at least `MIN_DAYS_TODAY` but
carry zero positive labels, `train_and_predict` returns probability exactly
`0.0`, model kind `logistic`, and null `auc`/`pr_auc` — for every fit
function (the quantification over `lrFit`/`lgbRun` expresses that no model is
fitted: the result does not depend on them), hence deterministically. -/
theorem train_zero_positive_labels (cfg : Config) (lrFit : SplitData → CandResult)
    (lgbRun : SplitData → Except Unit CandResult) (df : List TRow) (d u : ℤ)
    (h1 : cfg.MIN_DAYS_TODAY ≤ (validRows df).length)
    (h2 : ySum (validRows df) = 0) :
    train_and_predict cfg lrFit lgbRun df d u =
      ⟨some 0, "logistic", none, none, none⟩ := by
  unfold train_and_predict
  rw [if_neg (by omega), if_pos h2]

/-- Claim C5. When the LightGBM gate is open and the tree candidate's
fit/prediction/scoring block raises (modelled as `lgbRun … = .error e`; the
selection comparisons themselves are pure and cannot raise in the source),
`train_and_predict` does not propagate the exception — it is a total function
returning a result — and returns exactly the logistic candidate's result:
its probability, model kind `logistic`, its `auc`, `pr_auc` and its
contribution list. -/
theorem train_lgbm_fallback (cfg : Config) (lrFit : SplitData → CandResult)
    (lgbRun : SplitData → Except Unit CandResult) (df : List TRow) (d u : ℤ)
    (h1 : cfg.MIN_DAYS_TODAY ≤ (validRows df).length)
    (h2 : ySum (validRows df) ≠ 0)
    (hgate : cfg.LGBM_MIN_DAYS ≤ d ∧ cfg.LGBM_MIN_UNHEALTHY ≤ u)
    (e : Unit) (herr : lgbRun (splitOf cfg (validRows df)) = .error e) :
    train_and_predict cfg lrFit lgbRun df d u =
      ⟨some (lrFit (splitOf cfg (validRows df))).prob, "logistic",
       (lrFit (splitOf cfg (validRows df))).auc,
       (lrFit (splitOf cfg (validRows df))).pr_auc,
       some (lrFit (splitOf cfg (validRows df))).contributions⟩ := by
  unfold train_and_predict
  rw [if_neg (by omega), if_neg h2, if_pos hgate, herr]

def c4df : List TRow := List.replicate 14 ⟨some 0, List.replicate 15 (some 0)⟩

/-- Witness for C4 at a concrete input: 14 all-negative fully-observed rows. -/
theorem train_zero_positive_labels_witness :
    train_and_predict defaultConfig (fun _ => ⟨1/2, none, none, []⟩) (fun _ => .error ())
      c4df 20 0 = ⟨some 0, "logistic", none, none, none⟩ :=
  train_zero_positive_labels defaultConfig _ _ c4df 20 0
    (by norm_num [validRows, c4df, defaultConfig, List.filter])
    (by norm_num [ySum, validRows, c4df, pyInt, List.filter])

def c5df : List TRow :=
  ⟨some 1, List.replicate 15 (some 0)⟩ :: List.replicate 13 ⟨some 0, List.replicate 15 (some 0)⟩

/-- Witness for C5 at a concrete input: 14 valid rows with one positive
label, gate open, failing tree candidate. -/
theorem train_lgbm_fallback_witness :
    train_and_predict defaultConfig (fun _ => ⟨1/2, none, none, []⟩) (fun _ => .error ())
      c5df 100 20 = ⟨some (1/2), "logistic", none, none, some []⟩ :=
  train_lgbm_fallback defaultConfig _ _ c5df 100 20
    (by norm_num [validRows, c5df, defaultConfig, List.filter])
    (by norm_num [ySum, validRows, c5df, pyInt, List.filter])
    (by norm_num [defaultConfig])
    () rfl

/-! ## Advice Generator (`advice.generate_advice`) -/

/-- A pandas `series >= c` comparison on a nullable cell: `NaN` compares
`False`. -/
def cmpGeB (x : Option ℚ) (c : ℚ) : Bool :=
  match x with
  | some v => decide (c ≤ v)
  | none => false

/-- A pandas `series <= c` comparison on a nullable cell: `NaN` compares
`False`. -/
def cmpLeB (x : Option ℚ) (c : ℚ) : Bool :=
  match x with
  | some v => decide (v ≤ c)
  | none => false

/-- `valid = df.dropna(subset=["moodScore"])` (`advice.py` line 29). -/
def adviceValid (rows : List DRow) : List DRow :=
  rows.filter (fun r => r.moodScore.isSome)

/-- `mean_mood = valid["moodScore"].mean()` (`advice.py` line 33). -/
def adviceMean (rows : List DRow) : ℚ :=
  omean ((adviceValid rows).filterMap (fun r => r.moodScore))

/-- `good_days = valid[valid["moodScore"] >= mean_mood + 0.5]` (line 34). -/
def goodDays (rows : List DRow) : List DRow :=
  (adviceValid rows).filter (fun r => cmpGeB r.moodScore (adviceMean rows + 1/2))

/-- `bad_days = valid[valid["moodScore"] <= mean_mood - 0.5]` (line 35). -/
def badDays (rows : List DRow) : List DRow :=
  (adviceValid rows).filter (fun r => cmpLeB r.moodScore (adviceMean rows - 1/2))

/-- The per-metric non-null samples of each partition
(`good_days[col].dropna()` / `bad_days[col].dropna()`, lines 43–44, 60–61,
73–74). -/
def goodSleep (rows : List DRow) : List ℚ := (goodDays rows).filterMap (fun r => r.sleep_hours)
def badSleep (rows : List DRow) : List ℚ := (badDays rows).filterMap (fun r => r.sleep_hours)
def goodSteps (rows : List DRow) : List ℚ := (goodDays rows).filterMap (fun r => r.steps)
def badSteps (rows : List DRow) : List ℚ := (badDays rows).filterMap (fun r => r.steps)
def goodStress (rows : List DRow) : List ℚ := (goodDays rows).filterMap (fun r => r.stress)
def badStress (rows : List DRow) : List ℚ := (badDays rows).filterMap (fun r => r.stress)

/-- The sleep rule (lines 45–57): with at least 3 non-null samples on each
side, fire iff `avg_good_sleep - avg_bad_sleep > 0.3`. An advice is modelled
by its `param` tag (the message is a formatted string of the same
statistics). -/
def sleepAdvice (rows : List DRow) : List String :=
  if 3 ≤ (goodSleep rows).length ∧ 3 ≤ (badSleep rows).length ∧
     3/10 < omean (goodSleep rows) - omean (badSleep rows) then ["sleep"] else []

/-- The steps rule (lines 62–70): fire iff
`avg_good_steps - avg_bad_steps > 500`. -/
def stepsAdvice (rows : List DRow) : List String :=
  if 3 ≤ (goodSteps rows).length ∧ 3 ≤ (badSteps rows).length ∧
     500 < omean (goodSteps rows) - omean (badSteps rows) then ["steps"] else []

/-- `rec_level = int(round(avg_good_stress))` (line 79) — Python banker's
rounding. -/
def recLevel (rows : List DRow) : ℤ := pyRound (omean (goodStress rows))

/-- `low_stress = valid[valid["stress"].fillna(99) <= rec_level]` (line 82):
null stress falls on neither side for levels in the ordinal range. -/
def lowGroup (rows : List DRow) : List DRow :=
  (adviceValid rows).filter (fun r => decide (r.stress.getD 99 ≤ (recLevel rows : ℚ)))

/-- `high_stress = valid[valid["stress"].fillna(0) > rec_level]` (line 83). -/
def highGroup (rows : List DRow) : List DRow :=
  (adviceValid rows).filter (fun r => decide ((recLevel rows : ℚ) < r.stress.getD 0))

/-- `(low_stress["moodScore"] <= mean_mood - 1).mean()` (line 85): the
fraction of at-or-below-level days whose mood is at least one level under the
mean. -/
def lowBadRate (rows : List DRow) : ℚ :=
  (((lowGroup rows).filter (fun r => cmpLeB r.moodScore (adviceMean rows - 1))).length : ℚ) /
    ((lowGroup rows).length : ℚ)

/-- `(high_stress["moodScore"] <= mean_mood - 1).mean()` (line 86). -/
def highBadRate (rows : List DRow) : ℚ :=
  (((highGroup rows).filter (fun r => cmpLeB r.moodScore (adviceMean rows - 1))).length : ℚ) /
    ((highGroup rows).length : ℚ)

/-- The stress rule (lines 72–92): with at least 3 samples each side and
`avg_bad_stress - avg_good_stress > 0.5`, and both stress groups non-empty,
fire iff `diff_pct = int(round((high_bad_rate - low_bad_rate) * 100))`
is strictly greater than 5. -/
def stressAdvice (rows : List DRow) : List String :=
  if 3 ≤ (goodStress rows).length ∧ 3 ≤ (badStress rows).length then
    if 1/2 < omean (badStress rows) - omean (goodStress rows) then
      if lowGroup rows ≠ [] ∧ highGroup rows ≠ [] then
        if 5 < pyRound ((highBadRate rows - lowBadRate rows) * 100) then ["stress"] else []
      else []
    else []
  else []

/-- `advice.generate_advice` (`advice.py` lines 13–94): `None` probability,
fewer than 14 rows, fewer than 14 mood-valid rows, or fewer than 3 rows in
either partition give `[]`; otherwise the candidate advices are produced in
the fixed order sleep → steps → stress and truncated to the first 2
(`advices[:2]`). The unused `risk_threshold` parameter of the source is
omitted. -/
def generate_advice (rows : List DRow) (p_today : Option ℚ) : List String :=
  if p_today.isNone then []
  else if rows.length < 14 then []
  else if (adviceValid rows).length < 14 then []
  else if (goodDays rows).length < 3 ∨ (badDays rows).length < 3 then []
  else (sleepAdvice rows ++ stepsAdvice rows ++ stressAdvice rows).take 2

lemma sleepAdvice_cases (rows : List DRow) :
    sleepAdvice rows = [] ∨ sleepAdvice rows = ["sleep"] := by
  unfold sleepAdvice; split <;> simp

lemma stepsAdvice_cases (rows : List DRow) :
    stepsAdvice rows = [] ∨ stepsAdvice rows = ["steps"] := by
  unfold stepsAdvice; split <;> simp

lemma stressAdvice_cases (rows : List DRow) :
    stressAdvice rows = [] ∨ stressAdvice rows = ["stress"] := by
  unfold stressAdvice
  split
  · split
    · split
      · split <;> simp
      · simp
    · simp
  · simp

lemma stressAdvice_eq_iff (rows : List DRow) :
    stressAdvice rows = ["stress"] ↔
      (3 ≤ (goodStress rows).length ∧ 3 ≤ (badStress rows).length ∧
       1/2 < omean (badStress rows) - omean (goodStress rows) ∧
       lowGroup rows ≠ [] ∧ highGroup rows ≠ [] ∧
       5 < pyRound ((highBadRate rows - lowBadRate rows) * 100)) := by
  unfold stressAdvice
  split_ifs with h1 h2 h3 h4 <;> simp_all

lemma mem_generate_advice {rows : List DRow} {p : Option ℚ} {s : String}
    (h : s ∈ generate_advice rows p) :
    s ∈ sleepAdvice rows ∨ s ∈ stepsAdvice rows ∨ s ∈ stressAdvice rows := by
  unfold generate_advice at h
  split at h
  · simp at h
  · split at h
    · simp at h
    · split at h
      · simp at h
      · split at h
        · simp at h
        · have hm := List.mem_of_mem_take h
          rcases List.mem_append.mp hm with h' | h'
          · rcases List.mem_append.mp h' with h'' | h''
            · exact Or.inl h''
            · exact Or.inr (Or.inl h'')
          · exact Or.inr (Or.inr h')

lemma generate_advice_empty_cases (rows : List DRow) (p : Option ℚ)
    (h : p = none ∨ (adviceValid rows).length < 14 ∨ (goodDays rows).length < 3 ∨
      (badDays rows).length < 3) : generate_advice rows p = [] := by
  have hvalid_le : (adviceValid rows).length ≤ rows.length := List.length_filter_le _ _
  have key : (adviceValid rows).length < 14 ∨ (goodDays rows).length < 3 ∨
      (badDays rows).length < 3 → generate_advice rows p = [] := by
    intro hlt
    unfold generate_advice
    split
    · rfl
    · by_cases h14 : rows.length < 14
      · rw [if_pos h14]
      · rw [if_neg h14]
        by_cases hv : (adviceValid rows).length < 14
        · rw [if_pos hv]
        · rw [if_neg hv, if_pos (by omega)]
  rcases h with rfl | h | h | h
  · rfl
  · exact key (Or.inl h)
  · exact key (Or.inr (Or.inl h))
  · exact key (Or.inr (Or.inr h))

/-- Claim C8. Output shape of the Advice Generator: a null probability, fewer
than 14 mood-valid rows (which subsumes fewer than 14 input rows), or an
undersized good/bad partition give the empty list; the output always has at
most 2 elements; it is, in order, a subsequence of
`["sleep", "steps", "stress"]` (the fixed sleep → steps → stress evaluation
order, truncated to 2); and a metric with fewer than 3 non-null samples in
either partition contributes no advice. -/
theorem generate_advice_shape (rows : List DRow) (p : Option ℚ) :
    ((p = none ∨ (adviceValid rows).length < 14 ∨ (goodDays rows).length < 3 ∨
      (badDays rows).length < 3) → generate_advice rows p = [])
    ∧ (generate_advice rows p).length ≤ 2
    ∧ (generate_advice rows p).Sublist ["sleep", "steps", "stress"]
    ∧ (((goodSleep rows).length < 3 ∨ (badSleep rows).length < 3) →
        "sleep" ∉ generate_advice rows p)
    ∧ (((goodSteps rows).length < 3 ∨ (badSteps rows).length < 3) →
        "steps" ∉ generate_advice rows p)
    ∧ (((goodStress rows).length < 3 ∨ (badStress rows).length < 3) →
        "stress" ∉ generate_advice rows p) := by
  refine ⟨generate_advice_empty_cases rows p, ?_, ?_, ?_, ?_, ?_⟩
  · unfold generate_advice
    split
    · simp
    · split
      · simp
      · split
        · simp
        · split
          · simp
          · rw [List.length_take]; omega
  · have hsub : (sleepAdvice rows ++ stepsAdvice rows ++ stressAdvice rows).Sublist
        ["sleep", "steps", "stress"] := by
      rcases sleepAdvice_cases rows with h1 | h1 <;>
        rcases stepsAdvice_cases rows with h2 | h2 <;>
        rcases stressAdvice_cases rows with h3 | h3 <;>
        rw [h1, h2, h3] <;> decide
    unfold generate_advice
    split
    · simp
    · split
      · simp
      · split
        · simp
        · split
          · simp
          · exact (List.take_sublist _ _).trans hsub
  · intro hlt hmem
    have hempty : sleepAdvice rows = [] := by
      unfold sleepAdvice
      rw [if_neg (by rintro ⟨ha, hb, -⟩; rcases hlt with h | h <;> omega)]
    rcases mem_generate_advice hmem with h | h | h
    · rw [hempty] at h; simp at h
    · rcases stepsAdvice_cases rows with h2 | h2 <;> rw [h2] at h <;> simp at h
    · rcases stressAdvice_cases rows with h3 | h3 <;> rw [h3] at h <;> simp at h
  · intro hlt hmem
    have hempty : stepsAdvice rows = [] := by
      unfold stepsAdvice
      rw [if_neg (by rintro ⟨ha, hb, -⟩; rcases hlt with h | h <;> omega)]
    rcases mem_generate_advice hmem with h | h | h
    · rcases sleepAdvice_cases rows with h1 | h1 <;> rw [h1] at h <;> simp at h
    · rw [hempty] at h; simp at h
    · rcases stressAdvice_cases rows with h3 | h3 <;> rw [h3] at h <;> simp at h
  · intro hlt hmem
    have hempty : stressAdvice rows = [] := by
      unfold stressAdvice
      rw [if_neg (by rintro ⟨ha, hb⟩; rcases hlt with h | h <;> omega)]
    rcases mem_generate_advice hmem with h | h | h
    · rcases sleepAdvice_cases rows with h1 | h1 <;> rw [h1] at h <;> simp at h
    · rcases stepsAdvice_cases rows with h2 | h2 <;> rw [h2] at h <;> simp at h
    · rw [hempty] at h; simp at h

/-- Claim C9 (amended). Under the generator's preconditions, the stress rule
fires iff: at least 3 non-null stress samples per partition, bad-mean stress
exceeds good-mean stress by more than 0.5, both the at-or-below-`rec_level`
and above-`rec_level` groups are non-empty, and the bad-mood-rate advantage
`high_bad_rate - low_bad_rate`, times 100 and rounded half-to-even to a whole
number of percentage points, is strictly greater than 5 (not "at least 5");
and the fired stress advice reaches the returned list exactly when at most
one of the sleep/steps advices fired before it (final truncation to 2). -/
theorem stress_advice_amended (rows : List DRow) (p : ℚ)
    (h14 : 14 ≤ rows.length) (hv : 14 ≤ (adviceValid rows).length)
    (hg : 3 ≤ (goodDays rows).length) (hb : 3 ≤ (badDays rows).length) :
    "stress" ∈ generate_advice rows (some p) ↔
      (3 ≤ (goodStress rows).length ∧ 3 ≤ (badStress rows).length ∧
       1/2 < omean (badStress rows) - omean (goodStress rows) ∧
       lowGroup rows ≠ [] ∧ highGroup rows ≠ [] ∧
       5 < pyRound ((highBadRate rows - lowBadRate rows) * 100)) ∧
      (sleepAdvice rows).length + (stepsAdvice rows).length ≤ 1 := by
  have hout : generate_advice rows (some p) =
      (sleepAdvice rows ++ stepsAdvice rows ++ stressAdvice rows).take 2 := by
    unfold generate_advice
    rw [if_neg (by simp), if_neg (by omega), if_neg (by omega), if_neg (by omega)]
  rw [hout, ← stressAdvice_eq_iff]
  rcases sleepAdvice_cases rows with h1 | h1 <;>
    rcases stepsAdvice_cases rows with h2 | h2 <;>
    rcases stressAdvice_cases rows with h3 | h3 <;>
    rw [h1, h2, h3] <;> simp [h3]

def c9rows : List DRow :=
  [⟨0, some 5, none, none, some 1⟩, ⟨1, some 5, none, none, some 1⟩,
   ⟨2, some 5, none, none, some 1⟩, ⟨3, some 2, none, none, some 1⟩,
   ⟨4, some 2, none, none, some 2⟩, ⟨5, some 2, none, none, some 2⟩,
   ⟨6, some 2, none, none, some 2⟩, ⟨7, some 4, none, none, some 2⟩,
   ⟨8, some 4, none, none, some 2⟩, ⟨9, some 4, none, none, some 2⟩,
   ⟨10, some 4, none, none, some 2⟩, ⟨11, some 4, none, none, some 2⟩,
   ⟨12, some 4, none, none, some 2⟩, ⟨13, some 4, none, none, some 2⟩]

set_option maxHeartbeats 1000000 in
/-- Claim C9 counterexample: 14 mood-valid rows meeting every precondition,
with a 0.75-level stress gap and a bad-mood-rate advantage of exactly 1/20 —
i.e. exactly 5 percentage points, satisfying the claim's "at least a
5-percentage-point lower rate" — yet `generate_advice` returns no advice at
all, because the code requires `int(round(diff * 100)) > 5` strictly. -/
theorem stress_advice_counterexample :
    (adviceValid c9rows).length = 14 ∧ (goodDays c9rows).length = 3 ∧
    (badDays c9rows).length = 4 ∧
    (goodStress c9rows).length = 3 ∧ (badStress c9rows).length = 4 ∧
    (1/2 : ℚ) < omean (badStress c9rows) - omean (goodStress c9rows) ∧
    highBadRate c9rows - lowBadRate c9rows = 1/20 ∧
    generate_advice c9rows (some (1/2)) = [] := by
  norm_num [generate_advice, adviceValid, adviceMean, omean, goodDays, badDays, cmpGeB, cmpLeB,
    goodSleep, badSleep, goodSteps, badSteps, goodStress, badStress, sleepAdvice, stepsAdvice,
    stressAdvice, recLevel, pyRound, lowGroup, highGroup, lowBadRate, highBadRate, c9rows,
    List.filter, List.filterMap_cons]

def c9wrows : List DRow :=
  [⟨0, some 5, none, none, some 1⟩, ⟨1, some 5, none, none, some 1⟩,
   ⟨2, some 5, none, none, some 1⟩, ⟨3, some 2, none, none, some 2⟩,
   ⟨4, some 2, none, none, some 2⟩, ⟨5, some 2, none, none, some 2⟩,
   ⟨6, some 2, none, none, some 2⟩, ⟨7, some 4, none, none, some 2⟩,
   ⟨8, some 4, none, none, some 2⟩, ⟨9, some 4, none, none, some 2⟩,
   ⟨10, some 4, none, none, some 2⟩, ⟨11, some 4, none, none, some 2⟩,
   ⟨12, some 4, none, none, some 2⟩, ⟨13, some 4, none, none, some 2⟩]

set_option maxHeartbeats 1000000 in
/-- Witness for C9's amended theorem at a concrete input where the stress
rule fires (rate advantage 4/11 ≈ 36pp) and no sleep/steps advice precedes
it. -/
theorem stress_advice_amended_witness :
    "stress" ∈ generate_advice c9wrows (some (1/2)) := by
  refine (stress_advice_amended c9wrows (1/2) ?_ ?_ ?_ ?_).mpr ?_
  · norm_num [c9wrows]
  · norm_num [adviceValid, c9wrows, List.filter]
  · norm_num [goodDays, adviceValid, adviceMean, omean, cmpGeB, c9wrows,
      List.filter, List.filterMap_cons]
  · norm_num [badDays, adviceValid, adviceMean, omean, cmpLeB, c9wrows,
      List.filter, List.filterMap_cons]
  · norm_num [adviceValid, adviceMean, omean, goodDays, badDays, cmpGeB, cmpLeB,
      goodSleep, badSleep, goodSteps, badSteps, goodStress, badStress, sleepAdvice, stepsAdvice,
      recLevel, pyRound, lowGroup, highGroup, lowBadRate, highBadRate, c9wrows,
      List.filter, List.filterMap_cons]
    exact ⟨List.cons_ne_nil _ _, List.cons_ne_nil _ _⟩

/-- Witness for C8 at a concrete input (no rows, both null and non-null
probability): the empty-output case, the length bound, the order, and the
per-metric suppression all instantiate. -/
theorem generate_advice_shape_witness :
    generate_advice [] none = [] ∧
    (generate_advice [] (some 1)).length ≤ 2 ∧
    (generate_advice [] (some 1)).Sublist ["sleep", "steps", "stress"] ∧
    "sleep" ∉ generate_advice [] (some 1) ∧
    "steps" ∉ generate_advice [] (some 1) ∧
    "stress" ∉ generate_advice [] (some 1) :=
  ⟨(generate_advice_shape [] none).1 (Or.inl rfl),
   (generate_advice_shape [] (some 1)).2.1,
   (generate_advice_shape [] (some 1)).2.2.1,
   (generate_advice_shape [] (some 1)).2.2.2.1
     (Or.inl (by norm_num [goodSleep, goodDays, adviceValid])),
   (generate_advice_shape [] (some 1)).2.2.2.2.1
     (Or.inl (by norm_num [goodSteps, goodDays, adviceValid])),
   (generate_advice_shape [] (some 1)).2.2.2.2.2
     (Or.inl (by norm_num [goodStress, goodDays, adviceValid]))⟩
